import Mathlib

/-!
# Luxafor driver (`driver.go`)

A shallow embedding of the Go package `luxafor`.  The USB HID layer
(`github.com/karalabe/hid`) and `errors.Wrap` (`github.com/pkg/errors`) are
external collaborators: the HID layer is a record of state-passing functions
over an arbitrary world state, and every driver operation returns, next to its
Go result, the new world state and the list of calls it made on the
collaborators, in the order it made them.
-/

namespace luxafor

/-! ## Data model -/

/-- Go `byte` / `uint8`. -/
abbrev Byte := Fin 256

/-- Go `type Animation byte`. -/
abbrev Animation := Byte

/-- Go `type LED byte`. -/
abbrev LED := Byte

/-- Go `error` values: an error coming from the HID layer, or the result of
`errors.Wrap(cause, msg)`. -/
inductive GoError where
  | leaf (msg : String)
  | wrapped (cause : GoError) (msg : String)
deriving DecidableEq, Repr

/-- Go `errors.Wrap(err, msg)` for a non-nil `err`. -/
def errorsWrap (err : GoError) (msg : String) : GoError :=
  GoError.wrapped err msg

/-- Go `err.Error()`: a wrapped error prints its message, a colon and a blank, then its cause. -/
def GoError.message : GoError → String
  | GoError.leaf m => m
  | GoError.wrapped c m => m ++ ": " ++ c.message

/-- The error a wrapped error was made from; `none` for an error of the HID layer. -/
def GoError.unwrap : GoError → Option GoError
  | GoError.leaf _ => none
  | GoError.wrapped c _ => some c

def vendorID : Nat := 0x04d8
def deviceID : Nat := 0xf372

def static : Animation := 1
def fade : Animation := 2
def strobe : Animation := 3
def wave : Animation := 4
def pattrn : Animation := 6

def FrontTop : LED := 1
def FrontMiddle : LED := 2
def FrontBottom : LED := 3
def BackTop : LED := 4
def BackMiddle : LED := 5
def BackBottom : LED := 6
def FrontAll : LED := 65
def BackAll : LED := 66
def All : LED := 255

def SingleSmall : Nat := 1
def SingleLarge : Nat := 2
def DoubleSmall : Nat := 3
def DoubleLarge : Nat := 4

/-- The HID layer: `δ` is `hid.DeviceInfo`, `κ` is `*hid.Device`, `σ` is the
state of the outside world.  `zeroInfo` is the zero value of `hid.DeviceInfo`.
`write` returns Go's pair `(n, err)`. -/
structure Hid (δ κ σ : Type) where
  zeroInfo : δ
  enumerate : Nat → Nat → σ → List δ × σ
  openDev : δ → σ → Except GoError κ × σ
  write : κ → List Byte → σ → (Int × Option GoError) × σ
  close : κ → σ → Option GoError × σ

/-- Go `type Luxafor struct { deviceInfo hid.DeviceInfo }`. -/
structure Luxafor (δ : Type) where
  deviceInfo : δ
deriving DecidableEq, Repr

/-- One call on a collaborator, with what it returned. -/
inductive Event (δ κ : Type) where
  | enumerated (vid pid : Nat) (n : Nat)
  | openFail (info : δ) (err : GoError)
  | openOk (info : δ) (dev : κ)
  | write (dev : κ) (bytes : List Byte) (n : Int) (err : Option GoError)
  | close (dev : κ) (err : Option GoError)
  | sleep (ms : Nat)
deriving DecidableEq, Repr

/-- The result of a driver operation: the Go `error` (`none` is `nil`), the
world state afterwards and the calls made, oldest first. -/
structure Res (δ κ σ : Type) where
  err : Option GoError
  st : σ
  trace : List (Event δ κ)

section Driver

variable {δ κ σ : Type}

/-- Go `Enumerate`: `make([]Luxafor, len(infos))` followed by one `append` per descriptor. -/
def Enumerate (T : Hid δ κ σ) (s : σ) : List (Luxafor δ) × σ × List (Event δ κ) :=
  let r := T.enumerate vendorID deviceID s
  let infos := r.1
  let luxs : List (Luxafor δ) := List.replicate infos.length ⟨T.zeroInfo⟩
  let luxs := infos.foldl (fun acc info => acc ++ [Luxafor.mk info]) luxs
  (luxs, r.2, [Event.enumerated vendorID deviceID infos.length])

/-- Go `Luxafor.sendCommand`.  The deferred `device.Close()` runs on both
paths that follow a successful `Open`, and what it returns is dropped. -/
def sendCommand (T : Hid δ κ σ) (lux : Luxafor δ) (command : Animation) (led : LED)
    (r g b speed : Byte) (s : σ) : Res δ κ σ :=
  let info := lux.deviceInfo
  match T.openDev info s with
  | (Except.error err, s1) =>
    ⟨some (errorsWrap err "open lux"), s1, [Event.openFail info err]⟩
  | (Except.ok device, s1) =>
    match T.write device [command, led, r, g, b] s1 with
    | ((n, some err), s2) =>
      let c := T.close device s2
      ⟨some (errorsWrap err "device write"), c.2,
        [Event.openOk info device, Event.write device [command, led, r, g, b] n (some err),
          Event.close device c.1]⟩
    | ((n, none), s2) =>
      let c := T.close device s2
      ⟨none, c.2,
        [Event.openOk info device, Event.write device [command, led, r, g, b] n none,
          Event.close device c.1]⟩

/-- Go `Luxafor.Set`. -/
def Set (T : Hid δ κ σ) (lux : Luxafor δ) (led : LED) (r g b : Byte) (s : σ) : Res δ κ σ :=
  sendCommand T lux static led r g b 0 s

/-- Go `Luxafor.Solid`. -/
def Solid (T : Hid δ κ σ) (lux : Luxafor δ) (r g b : Byte) (s : σ) : Res δ κ σ :=
  Set T lux All r g b s

/-- Go `Luxafor.Sets`: the `range` loop over `leds`, returning at the first failing `Set`. -/
def Sets (T : Hid δ κ σ) (lux : Luxafor δ) : List LED → Byte → Byte → Byte → σ → Res δ κ σ
  | [], _, _, _, s => ⟨none, s, []⟩
  | led :: rest, r, g, b, s =>
    let x := Set T lux led r g b s
    match x.err with
    | some err => ⟨some (errorsWrap err "set led"), x.st, x.trace⟩
    | none =>
      let y := Sets T lux rest r g b x.st
      ⟨y.err, y.st, x.trace ++ y.trace⟩

/-- Go `Luxafor.Fade`. -/
def Fade (T : Hid δ κ σ) (lux : Luxafor δ) (led : LED) (r g b speed : Byte) (s : σ) :
    Res δ κ σ :=
  sendCommand T lux fade led r g b speed s

/-- The body of the `for` loop of `Luxafor.Police`: four `Fade` calls whose
results are dropped, and two `time.Sleep(500 * time.Millisecond)`. -/
def policeBody (T : Hid δ κ σ) (lux : Luxafor δ) (s : σ) : σ × List (Event δ κ) :=
  let r1 := Fade T lux FrontAll 255 0 0 255 s
  let r2 := Fade T lux BackAll 0 0 255 255 r1.st
  let r3 := Fade T lux FrontAll 0 0 255 255 r2.st
  let r4 := Fade T lux BackAll 255 0 0 255 r3.st
  (r4.st, r1.trace ++ r2.trace ++ [Event.sleep 500] ++ r3.trace ++ r4.trace ++ [Event.sleep 500])

/-- The loop `for i := 0; i < loops; i++ { ... }` of `Luxafor.Police`, from counter value `i`. -/
def policeLoop (T : Hid δ κ σ) (lux : Luxafor δ) (loops : Int) (i : Int) (s : σ) :
    σ × List (Event δ κ) :=
  if i < loops then
    let x := policeBody T lux s
    let y := policeLoop T lux loops (i + 1) x.1
    (y.1, x.2 ++ y.2)
  else (s, [])
termination_by (loops - i).toNat
decreasing_by omega

/-- Go `Luxafor.Police`: the loop, then `return nil`. -/
def Police (T : Hid δ κ σ) (lux : Luxafor δ) (loops : Int) (s : σ) : Res δ κ σ :=
  let x := policeLoop T lux loops 0 s
  ⟨none, x.1, x.2⟩

/-- Go `Luxafor.Off`: the body of `sendCommand` written out again for the frame
`{byte(static), byte(All), 0, 0, 0}`. -/
def Off (T : Hid δ κ σ) (lux : Luxafor δ) (s : σ) : Res δ κ σ :=
  let info := lux.deviceInfo
  match T.openDev info s with
  | (Except.error err, s1) =>
    ⟨some (errorsWrap err "open lux"), s1, [Event.openFail info err]⟩
  | (Except.ok device, s1) =>
    match T.write device [static, All, 0, 0, 0] s1 with
    | ((n, some err), s2) =>
      let c := T.close device s2
      ⟨some (errorsWrap err "device write"), c.2,
        [Event.openOk info device, Event.write device [static, All, 0, 0, 0] n (some err),
          Event.close device c.1]⟩
    | ((n, none), s2) =>
      let c := T.close device s2
      ⟨none, c.2,
        [Event.openOk info device, Event.write device [static, All, 0, 0, 0] n none,
          Event.close device c.1]⟩

end Driver

/-! ## Observations on a trace -/

section Observe

variable {δ κ : Type}

/-- The byte slices handed to `Write`, oldest first. -/
def writesOf : List (Event δ κ) → List (List Byte)
  | [] => []
  | Event.write _ bytes _ _ :: rest => bytes :: writesOf rest
  | _ :: rest => writesOf rest

/-- The number of `Open` calls, successful or not. -/
def opensOf : List (Event δ κ) → Nat
  | [] => 0
  | Event.openFail _ _ :: rest => opensOf rest + 1
  | Event.openOk _ _ :: rest => opensOf rest + 1
  | _ :: rest => opensOf rest

/-- The number of `Open` calls that failed. -/
def openFailsOf : List (Event δ κ) → Nat
  | [] => 0
  | Event.openFail _ _ :: rest => openFailsOf rest + 1
  | _ :: rest => openFailsOf rest

/-- The durations of the `time.Sleep` calls, in milliseconds, oldest first. -/
def sleepsOf : List (Event δ κ) → List Nat
  | [] => []
  | Event.sleep ms :: rest => ms :: sleepsOf rest
  | _ :: rest => sleepsOf rest

/-- How one open-write-close transaction ended, as far as the caller is
concerned: `Open` failed, or `Write` was called on a frame and returned an
error or none. -/
inductive Outcome where
  | openFailed (err : GoError)
  | wrote (frame : List Byte) (err : Option GoError)
deriving DecidableEq, Repr

/-- The outcomes of the transactions of a trace, oldest first: one per failed
`Open` and one per `Write`. -/
def outcomesOf : List (Event δ κ) → List Outcome
  | [] => []
  | Event.openFail _ err :: rest => Outcome.openFailed err :: outcomesOf rest
  | Event.write _ bytes _ err :: rest => Outcome.wrote bytes err :: outcomesOf rest
  | _ :: rest => outcomesOf rest

end Observe

/-! ## A scripted HID layer

Descriptors and device handles are numbers, the world state counts the calls
made so far, and three predicates on that count say which `Open`, `Write` and
`Close` calls fail. -/

def mockHid (infos : List Nat) (openFails writeFails closeFails : Nat → Bool) :
    Hid Nat Nat Nat where
  zeroInfo := 0
  enumerate := fun _ _ s => (infos, s + 1)
  openDev := fun info s =>
    (if openFails s then Except.error (GoError.leaf "no device") else Except.ok info, s + 1)
  write := fun _ bytes s =>
    (if writeFails s then (0, some (GoError.leaf "io error")) else ((bytes.length : Int), none),
      s + 1)
  close := fun _ s => (if closeFails s then some (GoError.leaf "close error") else none, s + 1)

def never : Nat → Bool := fun _ => false
def always : Nat → Bool := fun _ => true

/-- The loop body of `Luxafor.Police` run `n` times in a row. -/
def policeIter {δ κ σ : Type} (T : Hid δ κ σ) (lux : Luxafor δ) : Nat → σ → σ × List (Event δ κ)
  | 0, s => (s, [])
  | n + 1, s =>
    let x := policeBody T lux s
    let y := policeIter T lux n x.1
    (y.1, x.2 ++ y.2)

/-- The four frames one iteration of `Luxafor.Police` sends, in the order it sends them. -/
def policeFrames : List (List Byte) :=
  [[2, 65, 255, 0, 0], [2, 66, 0, 0, 255], [2, 65, 0, 0, 255], [2, 66, 255, 0, 0]]

/-- An outcome is an attempt at frame `f`: either the `Open` failed before anything was
written, or `f` is what was handed to `Write`. -/
def Outcome.attempts (o : Outcome) (f : List Byte) : Prop :=
  match o with
  | Outcome.openFailed _ => True
  | Outcome.wrote g _ => g = f

/-- An outcome is a success: the frame was written and `Write` returned no error. -/
def Outcome.succeeded (o : Outcome) : Prop :=
  match o with
  | Outcome.openFailed _ => False
  | Outcome.wrote _ err => err = none

instance Outcome.decAttempts (o : Outcome) (f : List Byte) : Decidable (o.attempts f) :=
  match o with
  | Outcome.openFailed _ => isTrue trivial
  | Outcome.wrote g _ => inferInstanceAs (Decidable (g = f))

instance Outcome.decSucceeded (o : Outcome) : Decidable o.succeeded :=
  match o with
  | Outcome.openFailed _ => isFalse (fun h => h)
  | Outcome.wrote _ err => inferInstanceAs (Decidable (err = none))

/-- The frames `n` iterations of `Luxafor.Police` send, in the order they are sent. -/
def policeFramesN : Nat → List (List Byte)
  | 0 => []
  | n + 1 => policeFrames ++ policeFramesN n

/-! ## The transaction of the specification

The specification describes every command as one transaction against the HID
layer: acquire the connection, write the frame, release the connection on
every path that acquired it.  `transaction` is that description, written
against the HID layer alone; `runScript` runs a list of transactions and
pauses one after the other, whatever the transactions return. -/

/-- One open, write, close transaction on `frame`: the world state afterwards and the calls made.
When `Open` fails nothing else is called; otherwise `Write` is called once on the opened handle
and then `Close` once on the same handle, whatever `Write` returned. -/
def transaction {δ κ σ : Type} (T : Hid δ κ σ) (info : δ) (frame : List Byte) (s : σ) :
    σ × List (Event δ κ) :=
  match T.openDev info s with
  | (Except.error e, s1) => (s1, [Event.openFail info e])
  | (Except.ok d, s1) =>
    let w := T.write d frame s1
    let c := T.close d w.2
    (c.2, [Event.openOk info d, Event.write d frame w.1.1 w.1.2, Event.close d c.1])

/-- One step of a fixed animation: a transaction on a frame, or a pause of `ms` milliseconds. -/
inductive Step where
  | send (frame : List Byte)
  | pause (ms : Nat)
deriving DecidableEq, Repr

/-- Runs the steps in order, each from the world state the previous one left, never stopping
early. -/
def runScript {δ κ σ : Type} (T : Hid δ κ σ) (info : δ) : List Step → σ → σ × List (Event δ κ)
  | [], s => (s, [])
  | Step.send frame :: rest, s =>
    let x := transaction T info frame s
    let y := runScript T info rest x.1
    (y.1, x.2 ++ y.2)
  | Step.pause ms :: rest, s =>
    let y := runScript T info rest s
    (y.1, Event.sleep ms :: y.2)

/-- The steps of `n` iterations of the police animation: fade the front group to red and the
back group to blue, pause 500 ms, fade the front group to blue and the back group to red, pause
500 ms. -/
def policeScript : Nat → List Step
  | 0 => []
  | n + 1 =>
    [Step.send [2, 65, 255, 0, 0], Step.send [2, 66, 0, 0, 255], Step.pause 500,
      Step.send [2, 65, 0, 0, 255], Step.send [2, 66, 255, 0, 0], Step.pause 500] ++
      policeScript n

/-! ## One transaction -/

section Transaction

variable {δ κ σ : Type}

theorem sendCommand_openFail (T : Hid δ κ σ) (lux : Luxafor δ) (command : Animation) (led : LED)
    (r g b speed : Byte) (s s1 : σ) (e : GoError)
    (h : T.openDev lux.deviceInfo s = (Except.error e, s1)) :
    sendCommand T lux command led r g b speed s =
      ⟨some (errorsWrap e "open lux"), s1, [Event.openFail lux.deviceInfo e]⟩ := by
  simp only [sendCommand, h]

theorem sendCommand_writeFail (T : Hid δ κ σ) (lux : Luxafor δ) (command : Animation) (led : LED)
    (r g b speed : Byte) (s s1 s2 : σ) (d : κ) (n : Int) (e : GoError)
    (h : T.openDev lux.deviceInfo s = (Except.ok d, s1))
    (hw : T.write d [command, led, r, g, b] s1 = ((n, some e), s2)) :
    sendCommand T lux command led r g b speed s =
      ⟨some (errorsWrap e "device write"), (T.close d s2).2,
        [Event.openOk lux.deviceInfo d, Event.write d [command, led, r, g, b] n (some e),
          Event.close d (T.close d s2).1]⟩ := by
  simp only [sendCommand, h, hw]

theorem sendCommand_writeOk (T : Hid δ κ σ) (lux : Luxafor δ) (command : Animation) (led : LED)
    (r g b speed : Byte) (s s1 s2 : σ) (d : κ) (n : Int)
    (h : T.openDev lux.deviceInfo s = (Except.ok d, s1))
    (hw : T.write d [command, led, r, g, b] s1 = ((n, none), s2)) :
    sendCommand T lux command led r g b speed s =
      ⟨none, (T.close d s2).2,
        [Event.openOk lux.deviceInfo d, Event.write d [command, led, r, g, b] n none,
          Event.close d (T.close d s2).1]⟩ := by
  simp only [sendCommand, h, hw]

/-- After a successful `Open` the trace of `sendCommand` is the open, one write of the frame on
the handle that was opened, and one close of that handle. -/
theorem sendCommand_openOk (T : Hid δ κ σ) (lux : Luxafor δ) (command : Animation) (led : LED)
    (r g b speed : Byte) (s s1 : σ) (d : κ)
    (h : T.openDev lux.deviceInfo s = (Except.ok d, s1)) :
    ∃ n ce, (sendCommand T lux command led r g b speed s).err =
        ((T.write d [command, led, r, g, b] s1).1.2).map (fun e => errorsWrap e "device write") ∧
      (sendCommand T lux command led r g b speed s).trace =
        [Event.openOk lux.deviceInfo d,
          Event.write d [command, led, r, g, b] n (T.write d [command, led, r, g, b] s1).1.2,
          Event.close d ce] := by
  rcases hw : T.write d [command, led, r, g, b] s1 with ⟨⟨n, _ | e⟩, s2⟩
  · exact ⟨n, (T.close d s2).1, by simp [sendCommand_writeOk T lux command led r g b speed s s1 s2 d n h hw]⟩
  · exact ⟨n, (T.close d s2).1, by simp [sendCommand_writeFail T lux command led r g b speed s s1 s2 d n e h hw]⟩

/-- The whole result of `sendCommand` after a successful `Open`, in terms of what `Write` and
`Close` return. -/
theorem sendCommand_run (T : Hid δ κ σ) (lux : Luxafor δ) (command : Animation) (led : LED)
    (r g b speed : Byte) (s s1 s2 s3 : σ) (d : κ) (n : Int) (we ce : Option GoError)
    (h : T.openDev lux.deviceInfo s = (Except.ok d, s1))
    (hw : T.write d [command, led, r, g, b] s1 = ((n, we), s2))
    (hc : T.close d s2 = (ce, s3)) :
    sendCommand T lux command led r g b speed s =
      ⟨we.map (fun e => errorsWrap e "device write"), s3,
        [Event.openOk lux.deviceInfo d, Event.write d [command, led, r, g, b] n we,
          Event.close d ce]⟩ := by
  cases we with
  | none =>
    rw [sendCommand_writeOk T lux command led r g b speed s s1 s2 d n h hw, hc]
    rfl
  | some e =>
    rw [sendCommand_writeFail T lux command led r g b speed s s1 s2 d n e h hw, hc]
    rfl

/-- The state and the trace of `sendCommand` are those of one transaction on its frame. -/
theorem sendCommand_eq_transaction (T : Hid δ κ σ) (lux : Luxafor δ) (command : Animation)
    (led : LED) (r g b speed : Byte) (s : σ) :
    ((sendCommand T lux command led r g b speed s).st,
      (sendCommand T lux command led r g b speed s).trace) =
      transaction T lux.deviceInfo [command, led, r, g, b] s := by
  rcases h : T.openDev lux.deviceInfo s with ⟨e | d, s1⟩
  · rw [sendCommand_openFail T lux command led r g b speed s s1 e h]
    simp only [transaction, h]
  · rcases hw : T.write d [command, led, r, g, b] s1 with ⟨⟨n, we⟩, s2⟩
    rcases hc : T.close d s2 with ⟨ce, s3⟩
    rw [sendCommand_run T lux command led r g b speed s s1 s2 s3 d n we ce h hw hc]
    simp only [transaction, h, hw, hc]

theorem Off_eq_sendCommand (T : Hid δ κ σ) (lux : Luxafor δ) (speed : Byte) (s : σ) :
    Off T lux s = sendCommand T lux static All 0 0 0 speed s := rfl

end Transaction

/-! ## The wire frame -/

section Frame

variable {δ κ σ : Type}

/-- C1: after a successful `Open` returning the handle `d`, `sendCommand` calls `Write` exactly
once, on `d`, with the five bytes `[command, led, r, g, b]` in that order, and then `Close` on
`d`: its error is the wrapped error of that `Write` (nil when there is none), its world state
is the one that `Close` leaves after that `Write`, and its trace is the open, that write with
what `Write` returned, and that close.  The whole result of `sendCommand` (error, world state
and trace) is the same for every value of `speed`. -/
theorem sendCommand_frame (T : Hid δ κ σ) (lux : Luxafor δ) (command : Animation) (led : LED)
    (r g b speed : Byte) (s : σ) :
    (∀ d s1 n we s2 ce s3, T.openDev lux.deviceInfo s = (Except.ok d, s1) →
      T.write d [command, led, r, g, b] s1 = ((n, we), s2) →
      T.close d s2 = (ce, s3) →
      sendCommand T lux command led r g b speed s =
        ⟨we.map (fun e => errorsWrap e "device write"), s3,
          [Event.openOk lux.deviceInfo d, Event.write d [command, led, r, g, b] n we,
            Event.close d ce]⟩ ∧
      writesOf (sendCommand T lux command led r g b speed s).trace =
        [[command, led, r, g, b]]) ∧
    (∀ speed2 : Byte, sendCommand T lux command led r g b speed2 s =
      sendCommand T lux command led r g b speed s) := by
  refine ⟨?_, fun _ => rfl⟩
  intro d s1 n we s2 ce s3 h hw hc
  rw [sendCommand_run T lux command led r g b speed s s1 s2 s3 d n we ce h hw hc]
  exact ⟨rfl, rfl⟩

theorem sendCommand_frame_witness :
    sendCommand (mockHid [] never never always) ⟨7⟩ 3 65 10 20 30 99 0 =
        ⟨none, 3, [Event.openOk 7 7, Event.write 7 [3, 65, 10, 20, 30] 5 none,
          Event.close 7 (some (GoError.leaf "close error"))]⟩ ∧
      writesOf (sendCommand (mockHid [] never never always) ⟨7⟩ 3 65 10 20 30 99 0).trace =
        [[3, 65, 10, 20, 30]] :=
  (sendCommand_frame (mockHid [] never never always) ⟨7⟩ 3 65 10 20 30 99 0).1
    7 1 5 none 2 (some (GoError.leaf "close error")) 3 rfl rfl rfl

/-- C8: `Solid(r, g, b)` has the same result as `Set(All, r, g, b)`.  After a successful `Open`
returning the handle `d`, each of `Solid(r, g, b)`, `Set(led, r, g, b)` and
`Fade(led, r, g, b, speed)` calls `Write` exactly once, on `d`, with the frame
`[1, 255, r, g, b]`, `[1, led, r, g, b]` and `[2, led, r, g, b]` respectively, and then `Close`
on `d`; its error, world state and trace are those of that `Write` and that `Close`. -/
theorem Solid_Set_Fade_frames (T : Hid δ κ σ) (lux : Luxafor δ) (led : LED)
    (r g b speed : Byte) (s : σ) :
    Solid T lux r g b s = Set T lux All r g b s ∧
    (∀ d s1 n we s2 ce s3, T.openDev lux.deviceInfo s = (Except.ok d, s1) →
      T.write d [1, 255, r, g, b] s1 = ((n, we), s2) → T.close d s2 = (ce, s3) →
      Solid T lux r g b s =
        ⟨we.map (fun e => errorsWrap e "device write"), s3,
          [Event.openOk lux.deviceInfo d, Event.write d [1, 255, r, g, b] n we,
            Event.close d ce]⟩ ∧
      writesOf (Solid T lux r g b s).trace = [[1, 255, r, g, b]] ∧
      writesOf (Set T lux All r g b s).trace = [[1, 255, r, g, b]]) ∧
    (∀ d s1 n we s2 ce s3, T.openDev lux.deviceInfo s = (Except.ok d, s1) →
      T.write d [1, led, r, g, b] s1 = ((n, we), s2) → T.close d s2 = (ce, s3) →
      Set T lux led r g b s =
        ⟨we.map (fun e => errorsWrap e "device write"), s3,
          [Event.openOk lux.deviceInfo d, Event.write d [1, led, r, g, b] n we,
            Event.close d ce]⟩ ∧
      writesOf (Set T lux led r g b s).trace = [[1, led, r, g, b]]) ∧
    (∀ d s1 n we s2 ce s3, T.openDev lux.deviceInfo s = (Except.ok d, s1) →
      T.write d [2, led, r, g, b] s1 = ((n, we), s2) → T.close d s2 = (ce, s3) →
      Fade T lux led r g b speed s =
        ⟨we.map (fun e => errorsWrap e "device write"), s3,
          [Event.openOk lux.deviceInfo d, Event.write d [2, led, r, g, b] n we,
            Event.close d ce]⟩ ∧
      writesOf (Fade T lux led r g b speed s).trace = [[2, led, r, g, b]]) := by
  have key : ∀ (c : Animation) (l : LED) (sp : Byte) d s1 n we s2 ce s3,
      T.openDev lux.deviceInfo s = (Except.ok d, s1) →
      T.write d [c, l, r, g, b] s1 = ((n, we), s2) → T.close d s2 = (ce, s3) →
      sendCommand T lux c l r g b sp s =
        ⟨we.map (fun e => errorsWrap e "device write"), s3,
          [Event.openOk lux.deviceInfo d, Event.write d [c, l, r, g, b] n we,
            Event.close d ce]⟩ ∧
      writesOf (sendCommand T lux c l r g b sp s).trace = [[c, l, r, g, b]] := by
    intro c l sp d s1 n we s2 ce s3 h hw hc
    rw [sendCommand_run T lux c l r g b sp s s1 s2 s3 d n we ce h hw hc]
    exact ⟨rfl, rfl⟩
  refine ⟨rfl, ?_, ?_, ?_⟩
  · intro d s1 n we s2 ce s3 h hw hc
    have k := key static All 0 d s1 n we s2 ce s3 h hw hc
    exact ⟨k.1, k.2, k.2⟩
  · intro d s1 n we s2 ce s3 h hw hc
    exact key static led 0 d s1 n we s2 ce s3 h hw hc
  · intro d s1 n we s2 ce s3 h hw hc
    exact key fade led speed d s1 n we s2 ce s3 h hw hc

theorem Solid_Set_Fade_frames_witness :
    (Solid (mockHid [] never never never) ⟨7⟩ 10 20 30 0 =
        ⟨none, 3, [Event.openOk 7 7, Event.write 7 [1, 255, 10, 20, 30] 5 none,
          Event.close 7 none]⟩ ∧
      writesOf (Solid (mockHid [] never never never) ⟨7⟩ 10 20 30 0).trace =
        [[1, 255, 10, 20, 30]] ∧
      writesOf (Set (mockHid [] never never never) ⟨7⟩ All 10 20 30 0).trace =
        [[1, 255, 10, 20, 30]]) ∧
    (Set (mockHid [] never never never) ⟨7⟩ 4 10 20 30 0 =
        ⟨none, 3, [Event.openOk 7 7, Event.write 7 [1, 4, 10, 20, 30] 5 none,
          Event.close 7 none]⟩ ∧
      writesOf (Set (mockHid [] never never never) ⟨7⟩ 4 10 20 30 0).trace =
        [[1, 4, 10, 20, 30]]) ∧
    (Fade (mockHid [] never never never) ⟨7⟩ 4 10 20 30 50 0 =
        ⟨none, 3, [Event.openOk 7 7, Event.write 7 [2, 4, 10, 20, 30] 5 none,
          Event.close 7 none]⟩ ∧
      writesOf (Fade (mockHid [] never never never) ⟨7⟩ 4 10 20 30 50 0).trace =
        [[2, 4, 10, 20, 30]]) :=
  ⟨(Solid_Set_Fade_frames (mockHid [] never never never) ⟨7⟩ 4 10 20 30 50 0).2.1
      7 1 5 none 2 none 3 rfl rfl rfl,
    (Solid_Set_Fade_frames (mockHid [] never never never) ⟨7⟩ 4 10 20 30 50 0).2.2.1
      7 1 5 none 2 none 3 rfl rfl rfl,
    (Solid_Set_Fade_frames (mockHid [] never never never) ⟨7⟩ 4 10 20 30 50 0).2.2.2
      7 1 5 none 2 none 3 rfl rfl rfl⟩

/-- C7: `Off()` has the same result as `Set(All, 0, 0, 0)`: the same error, the same world state
afterwards and the same trace of calls on the HID layer; and after a successful `Open` the one
frame written is `[1, 255, 0, 0, 0]`. -/
theorem Off_eq_Set_All (T : Hid δ κ σ) (lux : Luxafor δ) (s : σ) :
    Off T lux s = Set T lux All 0 0 0 s ∧
    (∀ d s1, T.openDev lux.deviceInfo s = (Except.ok d, s1) →
      writesOf (Off T lux s).trace = [[1, 255, 0, 0, 0]]) := by
  refine ⟨rfl, ?_⟩
  intro d s1 h
  rw [Off_eq_sendCommand T lux 0 s]
  obtain ⟨n, ce, -, ht⟩ := sendCommand_openOk T lux static All 0 0 0 0 s s1 d h
  rw [ht]
  rfl

theorem Off_eq_Set_All_witness :
    writesOf (Off (mockHid [] never never never) ⟨7⟩ 0).trace = [[1, 255, 0, 0, 0]] :=
  (Off_eq_Set_All (mockHid [] never never never) ⟨7⟩ 0).2 7 1 rfl

end Frame

/-! ## Errors and the release of the connection -/

section Errors

variable {δ κ σ : Type}

/-- C4: `Set`, `Fade` and `Off` return an error exactly when `Open` fails or `Write` fails.  When
`Open` fails all three return an error and make no `Write`; when `Open` succeeds each returns an
error if and only if its `Write` returns one, whatever `Close` returns. -/
theorem error_iff_open_or_write_fails (T : Hid δ κ σ) (lux : Luxafor δ) (led : LED)
    (r g b speed : Byte) (s : σ) :
    (∀ e s1, T.openDev lux.deviceInfo s = (Except.error e, s1) →
      (Set T lux led r g b s).err ≠ none ∧ writesOf (Set T lux led r g b s).trace = [] ∧
      (Fade T lux led r g b speed s).err ≠ none ∧
      writesOf (Fade T lux led r g b speed s).trace = [] ∧
      (Off T lux s).err ≠ none ∧ writesOf (Off T lux s).trace = []) ∧
    (∀ d s1, T.openDev lux.deviceInfo s = (Except.ok d, s1) →
      ((Set T lux led r g b s).err ≠ none ↔ (T.write d [1, led, r, g, b] s1).1.2 ≠ none) ∧
      ((Fade T lux led r g b speed s).err ≠ none ↔
        (T.write d [2, led, r, g, b] s1).1.2 ≠ none) ∧
      ((Off T lux s).err ≠ none ↔ (T.write d [1, 255, 0, 0, 0] s1).1.2 ≠ none)) := by
  constructor
  · intro e s1 h
    have key : ∀ (c : Animation) (l : LED) (x y z sp : Byte),
        (sendCommand T lux c l x y z sp s).err ≠ none ∧
          writesOf (sendCommand T lux c l x y z sp s).trace = [] := by
      intro c l x y z sp
      rw [sendCommand_openFail T lux c l x y z sp s s1 e h]
      exact ⟨by simp, rfl⟩
    exact ⟨(key static led r g b 0).1, (key static led r g b 0).2,
      (key fade led r g b speed).1, (key fade led r g b speed).2,
      (key static All 0 0 0 0).1, (key static All 0 0 0 0).2⟩
  · intro d s1 h
    have key : ∀ (c : Animation) (l : LED) (x y z sp : Byte),
        ((sendCommand T lux c l x y z sp s).err ≠ none ↔
          (T.write d [c, l, x, y, z] s1).1.2 ≠ none) := by
      intro c l x y z sp
      obtain ⟨n, ce, he, -⟩ := sendCommand_openOk T lux c l x y z sp s s1 d h
      rw [he]
      cases (T.write d [c, l, x, y, z] s1).1.2 <;> simp
    exact ⟨key static led r g b 0, key fade led r g b speed, key static All 0 0 0 0⟩

theorem error_iff_open_or_write_fails_witness :
    (Set (mockHid [] never never always) ⟨7⟩ 4 10 20 30 0).err = none ∧
    (Fade (mockHid [] never never always) ⟨7⟩ 4 10 20 30 50 0).err = none ∧
    (Off (mockHid [] never never always) ⟨7⟩ 0).err = none ∧
    ((Set (mockHid [] always never never) ⟨7⟩ 4 10 20 30 0).err ≠ none ∧
      writesOf (Set (mockHid [] always never never) ⟨7⟩ 4 10 20 30 0).trace = [] ∧
      (Fade (mockHid [] always never never) ⟨7⟩ 4 10 20 30 50 0).err ≠ none ∧
      writesOf (Fade (mockHid [] always never never) ⟨7⟩ 4 10 20 30 50 0).trace = [] ∧
      (Off (mockHid [] always never never) ⟨7⟩ 0).err ≠ none ∧
      writesOf (Off (mockHid [] always never never) ⟨7⟩ 0).trace = []) :=
  have h := (error_iff_open_or_write_fails (mockHid [] never never always) ⟨7⟩ 4 10 20 30 50 0).2
    7 1 rfl
  ⟨not_not.mp (fun x => h.1.mp x rfl), not_not.mp (fun x => h.2.1.mp x rfl),
    not_not.mp (fun x => h.2.2.mp x rfl),
    (error_iff_open_or_write_fails (mockHid [] always never never) ⟨7⟩ 4 10 20 30 50 0).1
      (GoError.leaf "no device") 1 rfl⟩

/-- C5 as the code has it: when `Open` fails with `e`, `sendCommand` returns `e` wrapped with
the context `open lux`, so its message is `open lux: ` followed by the message of `e`; when
`Write` fails with `e`, it returns `e` wrapped with the context `device write`.  In both cases
the error that was wrapped is `e`. -/
theorem sendCommand_error_context (T : Hid δ κ σ) (lux : Luxafor δ) (command : Animation)
    (led : LED) (r g b speed : Byte) (s : σ) :
    (∀ e s1, T.openDev lux.deviceInfo s = (Except.error e, s1) →
      ∃ x, (sendCommand T lux command led r g b speed s).err = some x ∧
        x.message = "open lux" ++ ": " ++ e.message ∧ x.unwrap = some e) ∧
    (∀ d s1 n e s2, T.openDev lux.deviceInfo s = (Except.ok d, s1) →
      T.write d [command, led, r, g, b] s1 = ((n, some e), s2) →
      ∃ x, (sendCommand T lux command led r g b speed s).err = some x ∧
        x.message = "device write" ++ ": " ++ e.message ∧ x.unwrap = some e) := by
  constructor
  · intro e s1 h
    rw [sendCommand_openFail T lux command led r g b speed s s1 e h]
    exact ⟨errorsWrap e "open lux", rfl, rfl, rfl⟩
  · intro d s1 n e s2 h hw
    rw [sendCommand_writeFail T lux command led r g b speed s s1 s2 d n e h hw]
    exact ⟨errorsWrap e "device write", rfl, rfl, rfl⟩

theorem sendCommand_error_context_witness :
    (∃ x, (sendCommand (mockHid [] always never never) ⟨7⟩ 1 255 0 0 0 0 0).err = some x ∧
      x.message = "open lux" ++ ": " ++ (GoError.leaf "no device").message ∧
      x.unwrap = some (GoError.leaf "no device")) ∧
    (∃ x, (sendCommand (mockHid [] never always never) ⟨7⟩ 1 255 0 0 0 0 0).err = some x ∧
      x.message = "device write" ++ ": " ++ (GoError.leaf "io error").message ∧
      x.unwrap = some (GoError.leaf "io error")) :=
  ⟨(sendCommand_error_context (mockHid [] always never never) ⟨7⟩ 1 255 0 0 0 0 0).1
      (GoError.leaf "no device") 1 rfl,
    (sendCommand_error_context (mockHid [] never always never) ⟨7⟩ 1 255 0 0 0 0 0).2
      7 1 0 (GoError.leaf "io error") 2 rfl rfl⟩

/-- C5 as the claim has it fails: when `Open` fails with the error `no device`, the message of
the error `sendCommand` returns is `open lux: no device`, not `open device: no device`. -/
theorem sendCommand_open_context_is_not_open_device :
    ((sendCommand (mockHid [] always never never) ⟨7⟩ 1 255 0 0 0 0 0).err).map GoError.message =
      some "open lux: no device" ∧
    ((sendCommand (mockHid [] always never never) ⟨7⟩ 1 255 0 0 0 0 0).err).map GoError.message ≠
      some ("open device" ++ ": " ++ (GoError.leaf "no device").message) := by
  constructor <;> decide

/-- C6: one call of `sendCommand`, `Set`, `Solid`, `Fade` or `Off` is one transaction on the
HID layer.  When `Open` fails with `e`, the call makes no other call: its trace is that failed
`Open` alone and the world state is the one `Open` left.  When `Open` returns the handle `d`,
the call makes one `Write` of its frame on `d` and then, whether or not that `Write` returned
an error, one `Close` on `d`: its trace is the open, the write with what `Write` returned and
the close with what `Close` returned, and the world state is the one that `Close` left. -/
theorem transaction_trace (T : Hid δ κ σ) (lux : Luxafor δ) (command : Animation) (led : LED)
    (r g b speed : Byte) (s : σ) :
    (∀ e s1, T.openDev lux.deviceInfo s = (Except.error e, s1) →
      ∀ x ∈ [sendCommand T lux command led r g b speed s, Set T lux led r g b s,
          Solid T lux r g b s, Fade T lux led r g b speed s, Off T lux s],
        x.trace = [Event.openFail lux.deviceInfo e] ∧ x.st = s1) ∧
    (∀ d s1, T.openDev lux.deviceInfo s = (Except.ok d, s1) →
      ∀ p ∈ [(sendCommand T lux command led r g b speed s, [command, led, r, g, b]),
          (Set T lux led r g b s, [1, led, r, g, b]),
          (Solid T lux r g b s, [1, 255, r, g, b]),
          (Fade T lux led r g b speed s, [2, led, r, g, b]),
          (Off T lux s, [1, 255, 0, 0, 0])],
        ∀ n we s2 ce s3, T.write d p.2 s1 = ((n, we), s2) → T.close d s2 = (ce, s3) →
          p.1.trace = [Event.openOk lux.deviceInfo d, Event.write d p.2 n we,
            Event.close d ce] ∧ p.1.st = s3) := by
  constructor
  · intro e s1 h
    have key : ∀ (c : Animation) (l : LED) (x y z sp : Byte),
        (sendCommand T lux c l x y z sp s).trace = [Event.openFail lux.deviceInfo e] ∧
          (sendCommand T lux c l x y z sp s).st = s1 := by
      intro c l x y z sp
      rw [sendCommand_openFail T lux c l x y z sp s s1 e h]
      exact ⟨rfl, rfl⟩
    intro x hx
    simp only [List.mem_cons, List.mem_singleton, List.not_mem_nil, or_false] at hx
    rcases hx with rfl | rfl | rfl | rfl | rfl
    · exact key command led r g b speed
    · exact key static led r g b 0
    · exact key static All r g b 0
    · exact key fade led r g b speed
    · exact key static All 0 0 0 0
  · intro d s1 h
    have key : ∀ (c : Animation) (l : LED) (x y z sp : Byte) n we s2 ce s3,
        T.write d [c, l, x, y, z] s1 = ((n, we), s2) → T.close d s2 = (ce, s3) →
        (sendCommand T lux c l x y z sp s).trace =
          [Event.openOk lux.deviceInfo d, Event.write d [c, l, x, y, z] n we,
            Event.close d ce] ∧ (sendCommand T lux c l x y z sp s).st = s3 := by
      intro c l x y z sp n we s2 ce s3 hw hc
      rw [sendCommand_run T lux c l x y z sp s s1 s2 s3 d n we ce h hw hc]
      exact ⟨rfl, rfl⟩
    intro p hp
    simp only [List.mem_cons, List.mem_singleton, List.not_mem_nil, or_false] at hp
    rcases hp with rfl | rfl | rfl | rfl | rfl
    · exact key command led r g b speed
    · exact key static led r g b 0
    · exact key static All r g b 0
    · exact key fade led r g b speed
    · exact key static All 0 0 0 0

theorem transaction_trace_witness :
    ((Off (mockHid [] always never never) ⟨7⟩ 0).trace =
        [Event.openFail 7 (GoError.leaf "no device")] ∧
      (Off (mockHid [] always never never) ⟨7⟩ 0).st = 1) ∧
    ((Fade (mockHid [] never always always) ⟨7⟩ 4 10 20 30 50 0).trace =
        [Event.openOk 7 7,
          Event.write 7 [2, 4, 10, 20, 30] 0 (some (GoError.leaf "io error")),
          Event.close 7 (some (GoError.leaf "close error"))] ∧
      (Fade (mockHid [] never always always) ⟨7⟩ 4 10 20 30 50 0).st = 3) :=
  ⟨(transaction_trace (mockHid [] always never never) ⟨7⟩ 1 4 10 20 30 50 0).1
      (GoError.leaf "no device") 1 rfl (Off (mockHid [] always never never) ⟨7⟩ 0) (by simp),
    (transaction_trace (mockHid [] never always always) ⟨7⟩ 1 4 10 20 30 50 0).2
      7 1 rfl (Fade (mockHid [] never always always) ⟨7⟩ 4 10 20 30 50 0, [2, 4, 10, 20, 30])
      (by simp) 0 (some (GoError.leaf "io error")) 2 (some (GoError.leaf "close error")) 3
      rfl rfl⟩

end Errors

/-! ## Observations and concatenation -/

section ObserveLemmas

variable {δ κ : Type}

theorem writesOf_append (a c : List (Event δ κ)) :
    writesOf (a ++ c) = writesOf a ++ writesOf c := by
  induction a with
  | nil => rfl
  | cons e a ih => cases e <;> simp [writesOf, ih]

theorem opensOf_append (a c : List (Event δ κ)) :
    opensOf (a ++ c) = opensOf a + opensOf c := by
  induction a with
  | nil => simp [opensOf]
  | cons e a ih => cases e <;> simp [opensOf, ih] <;> omega

theorem sleepsOf_append (a c : List (Event δ κ)) :
    sleepsOf (a ++ c) = sleepsOf a ++ sleepsOf c := by
  induction a with
  | nil => rfl
  | cons e a ih => cases e <;> simp [sleepsOf, ih]

theorem outcomesOf_append (a c : List (Event δ κ)) :
    outcomesOf (a ++ c) = outcomesOf a ++ outcomesOf c := by
  induction a with
  | nil => rfl
  | cons e a ih => cases e <;> simp [outcomesOf, ih]

end ObserveLemmas

section TransactionOutcome

variable {δ κ σ : Type}

/-- The three ways one `sendCommand` can end, with what each leaves in the trace. -/
theorem sendCommand_cases (T : Hid δ κ σ) (lux : Luxafor δ) (command : Animation) (led : LED)
    (r g b speed : Byte) (s : σ) :
    opensOf (sendCommand T lux command led r g b speed s).trace = 1 ∧
    sleepsOf (sendCommand T lux command led r g b speed s).trace = [] ∧
    (((sendCommand T lux command led r g b speed s).err = none ∧
        outcomesOf (sendCommand T lux command led r g b speed s).trace =
          [Outcome.wrote [command, led, r, g, b] none]) ∨
      (∃ e, (sendCommand T lux command led r g b speed s).err =
          some (errorsWrap e "open lux") ∧
        outcomesOf (sendCommand T lux command led r g b speed s).trace =
          [Outcome.openFailed e]) ∨
      (∃ e, (sendCommand T lux command led r g b speed s).err =
          some (errorsWrap e "device write") ∧
        outcomesOf (sendCommand T lux command led r g b speed s).trace =
          [Outcome.wrote [command, led, r, g, b] (some e)])) := by
  rcases h : T.openDev lux.deviceInfo s with ⟨e | d, s1⟩
  · rw [sendCommand_openFail T lux command led r g b speed s s1 e h]
    exact ⟨rfl, rfl, Or.inr (Or.inl ⟨e, rfl, rfl⟩)⟩
  · rcases hw : T.write d [command, led, r, g, b] s1 with ⟨⟨n, _ | e⟩, s2⟩
    · rw [sendCommand_writeOk T lux command led r g b speed s s1 s2 d n h hw]
      exact ⟨rfl, rfl, Or.inl ⟨rfl, rfl⟩⟩
    · rw [sendCommand_writeFail T lux command led r g b speed s s1 s2 d n e h hw]
      exact ⟨rfl, rfl, Or.inr (Or.inr ⟨e, rfl, rfl⟩)⟩

/-- Every `sendCommand` leaves exactly one outcome, an attempt at its frame. -/
theorem sendCommand_outcome (T : Hid δ κ σ) (lux : Luxafor δ) (command : Animation) (led : LED)
    (r g b speed : Byte) (s : σ) :
    ∃ o : Outcome, outcomesOf (sendCommand T lux command led r g b speed s).trace = [o] ∧
      o.attempts [command, led, r, g, b] := by
  rcases (sendCommand_cases T lux command led r g b speed s).2.2 with
    ⟨-, h⟩ | ⟨e, -, h⟩ | ⟨e, -, h⟩
  · exact ⟨_, h, rfl⟩
  · exact ⟨_, h, trivial⟩
  · exact ⟨_, h, rfl⟩

end TransactionOutcome

/-! ## `Sets` -/

section SetsLoop

variable {δ κ σ : Type}

theorem Sets_nil (T : Hid δ κ σ) (lux : Luxafor δ) (r g b : Byte) (s : σ) :
    Sets T lux [] r g b s = ⟨none, s, []⟩ := rfl

theorem Sets_cons_fail (T : Hid δ κ σ) (lux : Luxafor δ) (led : LED) (rest : List LED)
    (r g b : Byte) (s : σ) (e : GoError) (h : (Set T lux led r g b s).err = some e) :
    Sets T lux (led :: rest) r g b s =
      ⟨some (errorsWrap e "set led"), (Set T lux led r g b s).st,
        (Set T lux led r g b s).trace⟩ := by
  simp only [Sets, h]

theorem Sets_cons_ok (T : Hid δ κ σ) (lux : Luxafor δ) (led : LED) (rest : List LED)
    (r g b : Byte) (s : σ) (h : (Set T lux led r g b s).err = none) :
    Sets T lux (led :: rest) r g b s =
      ⟨(Sets T lux rest r g b (Set T lux led r g b s).st).err,
        (Sets T lux rest r g b (Set T lux led r g b s).st).st,
        (Set T lux led r g b s).trace ++
          (Sets T lux rest r g b (Set T lux led r g b s).st).trace⟩ := by
  simp only [Sets, h]

/-- C3: `Sets` calls `Set` on the LEDs in list order and returns at the first failing one.  If it
returns no error, it made one transaction per LED and every frame `[1, led, r, g, b]` was
written, in list order, without error.  If it returns an error, there is a position `k` in the
list such that exactly `k + 1` transactions were made: the first `k` wrote the frames of the
first `k` LEDs without error, the last is the failed `Open` or failed `Write` for the LED at
position `k`, and the error returned is that failure wrapped by `sendCommand` and then with the
context `set led`. -/
theorem Sets_stops_at_first_failure (T : Hid δ κ σ) (lux : Luxafor δ) (leds : List LED)
    (r g b : Byte) (s : σ) :
    ((Sets T lux leds r g b s).err = none →
      opensOf (Sets T lux leds r g b s).trace = leds.length ∧
      outcomesOf (Sets T lux leds r g b s).trace =
        leds.map (fun led => Outcome.wrote [1, led, r, g, b] none)) ∧
    (∀ x, (Sets T lux leds r g b s).err = some x →
      ∃ k led e, leds[k]? = some led ∧
        opensOf (Sets T lux leds r g b s).trace = k + 1 ∧
        ((x = errorsWrap (errorsWrap e "open lux") "set led" ∧
            outcomesOf (Sets T lux leds r g b s).trace =
              (leds.take k).map (fun led => Outcome.wrote [1, led, r, g, b] none) ++
                [Outcome.openFailed e]) ∨
          (x = errorsWrap (errorsWrap e "device write") "set led" ∧
            outcomesOf (Sets T lux leds r g b s).trace =
              (leds.take k).map (fun led => Outcome.wrote [1, led, r, g, b] none) ++
                [Outcome.wrote [1, led, r, g, b] (some e)]))) := by
  induction leds generalizing s with
  | nil =>
    rw [Sets_nil]
    exact ⟨fun _ => ⟨rfl, rfl⟩, fun x hx => by simp at hx⟩
  | cons led rest ih =>
    have hc : opensOf (Set T lux led r g b s).trace = 1 ∧ _ :=
      sendCommand_cases T lux static led r g b 0 s
    obtain ⟨hopen, -, hcase⟩ := hc
    rcases hcase with ⟨herr, hout⟩ | ⟨e, herr, hout⟩ | ⟨e, herr, hout⟩
    · have herr2 : (Set T lux led r g b s).err = none := herr
      have hout2 : outcomesOf (Set T lux led r g b s).trace =
          [Outcome.wrote [1, led, r, g, b] none] := hout
      rw [Sets_cons_ok T lux led rest r g b s herr2]
      obtain ⟨ih1, ih2⟩ := ih (Set T lux led r g b s).st
      constructor
      · intro h
        obtain ⟨h1, h2⟩ := ih1 h
        refine ⟨?_, ?_⟩
        · simp only [opensOf_append, hopen, h1, List.length_cons]
          omega
        · simp only [outcomesOf_append, hout2, h2, List.map_cons, List.singleton_append]
      · intro x hx
        obtain ⟨k, l, e, hk, ho, hcs⟩ := ih2 x hx
        refine ⟨k + 1, l, e, by simpa using hk, ?_, ?_⟩
        · simp only [opensOf_append, hopen, ho]
          omega
        · rcases hcs with ⟨hx1, ho1⟩ | ⟨hx1, ho1⟩
          · left
            refine ⟨hx1, ?_⟩
            simp only [outcomesOf_append, hout2, ho1, List.take_succ_cons, List.map_cons,
              List.singleton_append, List.cons_append, List.nil_append]
          · right
            refine ⟨hx1, ?_⟩
            simp only [outcomesOf_append, hout2, ho1, List.take_succ_cons, List.map_cons,
              List.singleton_append, List.cons_append, List.nil_append]
    · have herr2 : (Set T lux led r g b s).err = some (errorsWrap e "open lux") := herr
      have hout2 : outcomesOf (Set T lux led r g b s).trace = [Outcome.openFailed e] := hout
      rw [Sets_cons_fail T lux led rest r g b s _ herr2]
      refine ⟨fun h => by simp at h, fun x hx => ?_⟩
      refine ⟨0, led, e, by simp, by simpa using hopen, Or.inl ⟨?_, by simpa using hout2⟩⟩
      simpa using hx.symm
    · have herr2 : (Set T lux led r g b s).err = some (errorsWrap e "device write") := herr
      have hout2 : outcomesOf (Set T lux led r g b s).trace =
          [Outcome.wrote [1, led, r, g, b] (some e)] := hout
      rw [Sets_cons_fail T lux led rest r g b s _ herr2]
      refine ⟨fun h => by simp at h, fun x hx => ?_⟩
      refine ⟨0, led, e, by simp, by simpa using hopen, Or.inr ⟨?_, by simpa using hout2⟩⟩
      simpa using hx.symm

theorem Sets_stops_at_first_failure_witness :
    (outcomesOf (Sets (mockHid [] never (fun t => t == 4) never) ⟨7⟩ [1, 2, 3] 9 9 9 0).trace =
        [Outcome.wrote [1, 1, 9, 9, 9] none,
          Outcome.wrote [1, 2, 9, 9, 9] (some (GoError.leaf "io error"))]) ∧
    (∃ k led e, ([1, 2, 3] : List LED)[k]? = some led ∧
      opensOf (Sets (mockHid [] never (fun t => t == 4) never) ⟨7⟩ [1, 2, 3] 9 9 9 0).trace =
        k + 1 ∧
      ((errorsWrap (errorsWrap (GoError.leaf "io error") "device write") "set led" =
            errorsWrap (errorsWrap e "open lux") "set led" ∧
          outcomesOf (Sets (mockHid [] never (fun t => t == 4) never) ⟨7⟩ [1, 2, 3] 9 9 9 0).trace =
            (([1, 2, 3] : List LED).take k).map (fun led => Outcome.wrote [1, led, 9, 9, 9] none) ++
              [Outcome.openFailed e]) ∨
        (errorsWrap (errorsWrap (GoError.leaf "io error") "device write") "set led" =
            errorsWrap (errorsWrap e "device write") "set led" ∧
          outcomesOf (Sets (mockHid [] never (fun t => t == 4) never) ⟨7⟩ [1, 2, 3] 9 9 9 0).trace =
            (([1, 2, 3] : List LED).take k).map (fun led => Outcome.wrote [1, led, 9, 9, 9] none) ++
              [Outcome.wrote [1, led, 9, 9, 9] (some e)]))) ∧
    (opensOf (Sets (mockHid [] never never never) ⟨7⟩ [1, 2, 3] 9 9 9 0).trace = 3 ∧
      outcomesOf (Sets (mockHid [] never never never) ⟨7⟩ [1, 2, 3] 9 9 9 0).trace =
        ([1, 2, 3] : List LED).map (fun led => Outcome.wrote [1, led, 9, 9, 9] none)) :=
  ⟨by decide,
    (Sets_stops_at_first_failure (mockHid [] never (fun t => t == 4) never) ⟨7⟩ [1, 2, 3]
      9 9 9 0).2 _ rfl,
    (Sets_stops_at_first_failure (mockHid [] never never never) ⟨7⟩ [1, 2, 3] 9 9 9 0).1 rfl⟩

end SetsLoop

/-! ## `Police` -/

section PoliceLoop

variable {δ κ σ : Type}

theorem policeLoop_eq_iter (T : Hid δ κ σ) (lux : Luxafor δ) (loops : Int) (n : Nat) :
    ∀ (i : Int) (s : σ), (loops - i).toNat = n →
      policeLoop T lux loops i s = policeIter T lux n s := by
  induction n with
  | zero =>
    intro i s h
    have hi : ¬ i < loops := by omega
    rw [policeLoop, if_neg hi]
    rfl
  | succ n ih =>
    intro i s h
    have hi : i < loops := by omega
    rw [policeLoop, if_pos hi]
    have hn : (loops - (i + 1)).toNat = n := by omega
    simp only [ih (i + 1) _ hn, policeIter]

theorem Police_eq_iter (T : Hid δ κ σ) (lux : Luxafor δ) (loops : Int) (s : σ) :
    Police T lux loops s =
      ⟨none, (policeIter T lux loops.toNat s).1, (policeIter T lux loops.toNat s).2⟩ := by
  have h := policeLoop_eq_iter T lux loops loops.toNat 0 s (by simp)
  simp only [Police, h]

theorem policeBody_opens (T : Hid δ κ σ) (lux : Luxafor δ) (s : σ) :
    opensOf (policeBody T lux s).2 = 4 := by
  simp only [policeBody, opensOf_append, Fade, (sendCommand_cases T lux _ _ _ _ _ _ _).1]
  rfl

theorem policeBody_sleeps (T : Hid δ κ σ) (lux : Luxafor δ) (s : σ) :
    sleepsOf (policeBody T lux s).2 = [500, 500] := by
  simp only [policeBody, sleepsOf_append, Fade, (sendCommand_cases T lux _ _ _ _ _ _ _).2.1]
  rfl

theorem policeBody_outcomes (T : Hid δ κ σ) (lux : Luxafor δ) (s : σ) :
    List.Forall₂ Outcome.attempts (outcomesOf (policeBody T lux s).2) policeFrames := by
  simp only [policeBody, outcomesOf_append, Fade]
  obtain ⟨o1, h1, a1⟩ := sendCommand_outcome T lux fade FrontAll 255 0 0 255 s
  obtain ⟨o2, h2, a2⟩ := sendCommand_outcome T lux fade BackAll 0 0 255 255
    (sendCommand T lux fade FrontAll 255 0 0 255 s).st
  obtain ⟨o3, h3, a3⟩ := sendCommand_outcome T lux fade FrontAll 0 0 255 255
    (sendCommand T lux fade BackAll 0 0 255 255
      (sendCommand T lux fade FrontAll 255 0 0 255 s).st).st
  obtain ⟨o4, h4, a4⟩ := sendCommand_outcome T lux fade BackAll 255 0 0 255
    (sendCommand T lux fade FrontAll 0 0 255 255
      (sendCommand T lux fade BackAll 0 0 255 255
        (sendCommand T lux fade FrontAll 255 0 0 255 s).st).st).st
  rw [h1, h2, h3, h4]
  exact List.Forall₂.cons a1 (List.Forall₂.cons a2 (List.Forall₂.cons a3
    (List.Forall₂.cons a4 List.Forall₂.nil)))

theorem policeIter_opens (T : Hid δ κ σ) (lux : Luxafor δ) (n : Nat) :
    ∀ s : σ, opensOf (policeIter T lux n s).2 = 4 * n := by
  induction n with
  | zero => intro s; rfl
  | succ n ih =>
    intro s
    simp only [policeIter, opensOf_append, policeBody_opens, ih]
    omega

theorem policeIter_sleeps (T : Hid δ κ σ) (lux : Luxafor δ) (n : Nat) :
    ∀ s : σ, sleepsOf (policeIter T lux n s).2 = List.replicate (2 * n) 500 := by
  induction n with
  | zero => intro s; rfl
  | succ n ih =>
    intro s
    simp only [policeIter, sleepsOf_append, policeBody_sleeps, ih]
    have h : 2 * (n + 1) = (n * 2 + 1) + 1 := by omega
    rw [h, List.replicate_succ, List.replicate_succ]
    have h2 : n * 2 = 2 * n := by omega
    rw [h2]
    rfl

theorem policeIter_outcomes (T : Hid δ κ σ) (lux : Luxafor δ) (n : Nat) :
    ∀ s : σ, List.Forall₂ Outcome.attempts (outcomesOf (policeIter T lux n s).2)
      (policeFramesN n) := by
  induction n with
  | zero => intro s; exact List.Forall₂.nil
  | succ n ih =>
    intro s
    simp only [policeIter, outcomesOf_append, policeFramesN]
    exact List.rel_append (policeBody_outcomes T lux s) (ih _)

theorem policeFramesN_length (n : Nat) : (policeFramesN n).length = 4 * n := by
  induction n with
  | zero => rfl
  | succ n ih =>
    simp only [policeFramesN, List.length_append, ih, policeFrames, List.length_cons,
      List.length_nil]
    omega

theorem outcomesOf_length (tr : List (Event δ κ)) :
    (outcomesOf tr).length = (writesOf tr).length + openFailsOf tr := by
  induction tr with
  | nil => rfl
  | cons ev tr ih =>
    cases ev <;> simp only [writesOf, outcomesOf, openFailsOf, List.length_cons, ih] <;> omega

theorem attempts_of_succeeded {a : List Outcome} {frames : List (List Byte)}
    (ha : List.Forall₂ Outcome.attempts a frames) :
    ∀ {c : List Outcome}, List.Forall₂ Outcome.attempts c frames →
      (∀ o ∈ c, o.succeeded) →
      List.Forall₂ (fun o p => ∃ f, p = Outcome.wrote f none ∧ o.attempts f) a c := by
  induction ha with
  | nil =>
    intro c hc _
    cases hc
    exact List.Forall₂.nil
  | cons hof _ ih =>
    intro c hc hs
    cases hc with
    | cons hpf hrest =>
      rename_i p ps
      refine List.Forall₂.cons ?_ (ih hrest (fun o ho => hs o (List.mem_cons_of_mem _ ho)))
      have hp := hs p (List.mem_cons_self _ _)
      cases p with
      | openFailed e => exact absurd hp (fun h => h)
      | wrote g err =>
        have hg : g = _ := hpf
        have he : err = none := hp
        subst hg
        subst he
        exact ⟨g, rfl, hof⟩

theorem runScript_append (T : Hid δ κ σ) (info : δ) (a c : List Step) :
    ∀ s : σ, runScript T info (a ++ c) s =
      ((runScript T info c (runScript T info a s).1).1,
        (runScript T info a s).2 ++ (runScript T info c (runScript T info a s).1).2) := by
  induction a with
  | nil => intro s; rfl
  | cons st a ih =>
    intro s
    cases st with
    | send frame =>
      simp only [List.cons_append, runScript, List.append_eq, ih, List.append_assoc]
    | pause ms => simp only [List.cons_append, runScript, List.append_eq, ih]

theorem policeBody_eq_script (T : Hid δ κ σ) (lux : Luxafor δ) (s : σ) :
    policeBody T lux s = runScript T lux.deviceInfo (policeScript 1) s := by
  have h : ∀ (l : LED) (x y z : Byte) (t : σ),
      transaction T lux.deviceInfo [2, l, x, y, z] t =
        ((Fade T lux l x y z 255 t).st, (Fade T lux l x y z 255 t).trace) :=
    fun l x y z t => (sendCommand_eq_transaction T lux fade l x y z 255 t).symm
  simp only [policeBody, policeScript, runScript, h, FrontAll, BackAll, List.append_nil,
    List.append_assoc, List.cons_append, List.nil_append]

theorem policeIter_eq_script (T : Hid δ κ σ) (lux : Luxafor δ) (n : Nat) :
    ∀ s : σ, policeIter T lux n s = runScript T lux.deviceInfo (policeScript n) s := by
  induction n with
  | zero => intro s; rfl
  | succ n ih =>
    intro s
    have h1 : policeScript (n + 1) = policeScript 1 ++ policeScript n := by
      simp only [policeScript, List.append_nil]
    rw [h1, runScript_append, ← policeBody_eq_script, ← ih]
    rfl

theorem Police_eq_script (T : Hid δ κ σ) (lux : Luxafor δ) (loops : Int) (s : σ) :
    ((Police T lux loops s).st, (Police T lux loops s).trace) =
      runScript T lux.deviceInfo (policeScript loops.toNat) s := by
  rw [Police_eq_iter, ← policeIter_eq_script]

/-- C9 as the code has it: `Police(loops)` makes four `Fade` transactions per loop iteration,
`4 * loops` in all (none for `loops <= 0`), whatever the HID layer returns.  Its calls on the
HID layer and the world state it leaves are exactly those of running, `loops` times over, a
transaction on `[2, 65, 255, 0, 0]`, one on `[2, 66, 0, 0, 255]`, a pause of 500 ms, a
transaction on `[2, 65, 0, 0, 255]`, one on `[2, 66, 255, 0, 0]` and a pause of 500 ms, each
transaction being one `Open` followed, unless that `Open` fails, by one `Write` and one `Close`.
So there are `4 * loops` `Open` calls, the `Write` calls and the failed `Open` calls together
number `4 * loops`, and there are `2 * loops` pauses of 500 ms. -/
theorem Police_four_fades_per_loop (T : Hid δ κ σ) (lux : Luxafor δ) (loops : Int) (s : σ) :
    ((Police T lux loops s).st, (Police T lux loops s).trace) =
      runScript T lux.deviceInfo (policeScript loops.toNat) s ∧
    opensOf (Police T lux loops s).trace = 4 * loops.toNat ∧
    (writesOf (Police T lux loops s).trace).length + openFailsOf (Police T lux loops s).trace =
      4 * loops.toNat ∧
    sleepsOf (Police T lux loops s).trace = List.replicate (2 * loops.toNat) 500 := by
  refine ⟨Police_eq_script T lux loops s, ?_⟩
  rw [Police_eq_iter]
  refine ⟨policeIter_opens T lux _ s, ?_, policeIter_sleeps T lux _ s⟩
  rw [← outcomesOf_length, (policeIter_outcomes T lux loops.toNat s).length_eq,
    policeFramesN_length]

/-- C9 as the claim has it fails: on an HID layer where every call succeeds, `Police(2)` makes 8
`Write` calls (and 8 `Open` calls), not 4; and on an HID layer where every `Open` fails it
makes no `Write` call at all. -/
theorem Police_two_issues_eight_fades :
    (writesOf (Police (mockHid [] never never never) ⟨7⟩ 2 0).trace).length = 8 ∧
    opensOf (Police (mockHid [] never never never) ⟨7⟩ 2 0).trace = 8 ∧
    (writesOf (Police (mockHid [] never never never) ⟨7⟩ 2 0).trace).length ≠ 2 * 2 ∧
    (writesOf (Police (mockHid [] always never never) ⟨7⟩ 2 0).trace).length = 0 := by
  rw [Police_eq_iter, Police_eq_iter]
  decide

/-- C10: `Police(loops)` returns nil for every `loops` and every behaviour of the HID layer, and
a failing `Fade` neither ends the loop nor changes what is attempted afterwards.  The calls on
the HID layer and the world state left are those of running all the transactions and pauses of
`loops` iterations in order; the number of `Open` calls is the same as in any other run of
`Police(loops)`; and compared with any run of `Police(loops)` in which every `Fade` succeeds,
the transactions correspond position by position, each one either having failed at `Open` or
having handed to `Write` the frame the successful run wrote at that position. -/
theorem Police_ignores_failures (T : Hid δ κ σ) (lux : Luxafor δ) (loops : Int) (s : σ) :
    (Police T lux loops s).err = none ∧
    ((Police T lux loops s).st, (Police T lux loops s).trace) =
      runScript T lux.deviceInfo (policeScript loops.toNat) s ∧
    List.Forall₂ Outcome.attempts (outcomesOf (Police T lux loops s).trace)
      (policeFramesN loops.toNat) ∧
    (∀ (T2 : Hid δ κ σ) (lux2 : Luxafor δ) (s2 : σ),
      opensOf (Police T lux loops s).trace = opensOf (Police T2 lux2 loops s2).trace) ∧
    (∀ (T2 : Hid δ κ σ) (lux2 : Luxafor δ) (s2 : σ),
      (∀ o ∈ outcomesOf (Police T2 lux2 loops s2).trace, o.succeeded) →
      List.Forall₂ (fun o p => ∃ f, p = Outcome.wrote f none ∧ o.attempts f)
        (outcomesOf (Police T lux loops s).trace)
        (outcomesOf (Police T2 lux2 loops s2).trace)) := by
  refine ⟨rfl, Police_eq_script T lux loops s, ?_, ?_, ?_⟩
  · rw [Police_eq_iter]
    exact policeIter_outcomes T lux _ s
  · intro T2 lux2 s2
    rw [Police_eq_iter, Police_eq_iter]
    exact (policeIter_opens T lux _ s).trans (policeIter_opens T2 lux2 _ s2).symm
  · intro T2 lux2 s2 h
    rw [Police_eq_iter] at h ⊢
    rw [Police_eq_iter T2]
    exact attempts_of_succeeded (policeIter_outcomes T lux _ s)
      (policeIter_outcomes T2 lux2 _ s2) h

theorem Police_ignores_failures_witness :
    outcomesOf (Police (mockHid [] (fun t => t == 3) (fun t => t == 1) always) ⟨7⟩ 1 0).trace =
      [Outcome.wrote [2, 65, 255, 0, 0] (some (GoError.leaf "io error")),
        Outcome.openFailed (GoError.leaf "no device"),
        Outcome.wrote [2, 65, 0, 0, 255] none, Outcome.wrote [2, 66, 255, 0, 0] none] ∧
    (Police (mockHid [] (fun t => t == 3) (fun t => t == 1) always) ⟨7⟩ 1 0).err = none ∧
    List.Forall₂ (fun o p => ∃ f, p = Outcome.wrote f none ∧ o.attempts f)
      (outcomesOf (Police (mockHid [] (fun t => t == 3) (fun t => t == 1) always) ⟨7⟩ 1 0).trace)
      (outcomesOf (Police (mockHid [] never never always) ⟨8⟩ 1 0).trace) :=
  ⟨by rw [Police_eq_iter]; decide,
    (Police_ignores_failures (mockHid [] (fun t => t == 3) (fun t => t == 1) always) ⟨7⟩ 1 0).1,
    (Police_ignores_failures (mockHid [] (fun t => t == 3) (fun t => t == 1) always) ⟨7⟩
      1 0).2.2.2.2 (mockHid [] never never always) ⟨8⟩ 0 (by rw [Police_eq_iter]; decide)⟩

end PoliceLoop

/-! ## `Enumerate` -/

section EnumerateSlice

variable {δ κ σ : Type}

theorem foldl_append_singleton (infos : List δ) :
    ∀ init : List (Luxafor δ),
      infos.foldl (fun acc info => acc ++ [Luxafor.mk info]) init =
        init ++ infos.map Luxafor.mk := by
  induction infos with
  | nil => intro init; simp
  | cons info infos ih => intro init; simp [ih]

/-- What `Enumerate` returns for any HID layer: as many zero-valued controllers as there are
descriptors, followed by one controller per descriptor in the order of the descriptors. -/
theorem Enumerate_eq (T : Hid δ κ σ) (s : σ) :
    (Enumerate T s).1 =
      List.replicate (T.enumerate vendorID deviceID s).1.length (Luxafor.mk T.zeroInfo) ++
        (T.enumerate vendorID deviceID s).1.map Luxafor.mk := by
  simp only [Enumerate, foldl_append_singleton]

theorem Enumerate_length (T : Hid δ κ σ) (s : σ) :
    (Enumerate T s).1.length = 2 * (T.enumerate vendorID deviceID s).1.length := by
  rw [Enumerate_eq]
  simp only [List.length_append, List.length_replicate, List.length_map]
  omega

/-- C2 fails on the code: when the HID layer returns the one descriptor `5`, `Enumerate` returns
two controllers, a zero-valued one followed by the one holding `5`; and for three descriptors it
returns six. -/
theorem Enumerate_one_descriptor_returns_two :
    (Enumerate (mockHid [5] never never never) 0).1 = [Luxafor.mk 0, Luxafor.mk 5] ∧
    (Enumerate (mockHid [5] never never never) 0).1.length = 2 ∧
    (Enumerate (mockHid [5, 6, 7] never never never) 0).1.length = 6 ∧
    (Enumerate (mockHid [] never never never) 0).1.length = 0 := by
  decide

end EnumerateSlice

end luxafor
